import Mathlib

/-!
Shallow embedding of the Echo-Kernel agent-orchestration framework
(`echo_kernel/EchoKernel.py`, the OpenAI/Azure text providers and the agent
classes), together with theorems settling the specification claims about it.

Modelling conventions:
* A raised Python exception is a `PyError` value carrying the exception class
  name and its message; fallible code returns `Except PyError α`.
* Python `dict` (insertion ordered, update-in-place) is `List (String × α)`
  with `dictSet` / `dictGet`.
* Python float generation parameters (`temperature`, `top_p`, ...) are modelled
  as rationals; they are passed through untouched by all code under study.
* External collaborators (the OpenAI chat backend, sub-agents, memory stores)
  are parameters of the embedded functions: a backend is a function from the
  call index and request messages to a response, an agent is a function from
  its prompt to its reply, a memory store is a pair of fallible operations.
* `print` calls are no-ops and are not modelled; reads of
  `kernel.agent_logging_enabled` that guard them can raise `AttributeError`
  and are modelled explicitly.
-/

namespace EchoSpec

/-- A raised Python exception: its class name and message. -/
structure PyError where
  className : String
  msg : String
deriving DecidableEq, Repr

/-- `ValueError(m)`. -/
def valueError (m : String) : PyError := ⟨"ValueError", m⟩

/-- The `AttributeError` raised by reading a missing attribute `attr` on an
object of class `owner`, with CPython message text. -/
def attrError (owner attr : String) : PyError :=
  ⟨"AttributeError", "\x27" ++ owner ++ "\x27 object has no attribute \x27" ++ attr ++ "\x27"⟩

/-- Python dict update `d[k] = v`: replaces in place the first (unique) binding
of `k`, else appends, preserving insertion order. -/
def dictSet {α : Type} : List (String × α) → String → α → List (String × α)
  | [], k, v => [(k, v)]
  | (k', v') :: rest, k, v =>
      if k' = k then (k, v) :: rest else (k', v') :: dictSet rest k v

/-- Python dict lookup `d.get(k)`. -/
def dictGet {α : Type} : List (String × α) → String → Option α
  | [], _ => none
  | (k', v) :: rest, k => if k' = k then some v else dictGet rest k

/-- Contiguous-sublist test: does `needle` occur inside `hay`? -/
def containsSub (hay needle : List Char) : Bool :=
  match hay with
  | [] => needle.isEmpty
  | _ :: t => needle.isPrefixOf hay || containsSub t needle

/-- Python `needle.lower() in hay.lower()`: case-insensitive substring test. -/
def lowerContains (hay needle : String) : Bool :=
  containsSub (hay.toList.map Char.toLower) (needle.toList.map Char.toLower)

/-- Python `s.strip()`: drop leading and trailing whitespace. -/
def pyStrip (s : String) : String :=
  String.mk
    (((s.toList.dropWhile Char.isWhitespace).reverse.dropWhile Char.isWhitespace).reverse)

/-- Helper for `pySplitLines`: gather the current line until a newline. -/
def pySplitLinesAux : List Char → List Char → List (List Char)
  | [], acc => [acc]
  | c :: rest, acc =>
      if c = '\n' then
        acc :: (if rest.isEmpty then [] else pySplitLinesAux rest [])
      else pySplitLinesAux rest (acc ++ [c])

/-- Python `s.splitlines()` for newline-separated text: no entry for a
trailing newline, and no entry at all for the empty string. -/
def pySplitLines (s : String) : List String :=
  if s.toList.isEmpty then [] else (pySplitLinesAux s.toList []).map String.mk

/-- Python `s.split(sep, 1)` for a one-character separator: the text before the
first occurrence of `sep` and the text after it. -/
def splitFirst (s : String) (sep : Char) : String × String :=
  let l := s.toList
  let pre := l.takeWhile (fun c => c ≠ sep)
  (String.mk pre, String.mk (l.drop (pre.length + 1)))

/-! ## `echo_kernel/EchoTool.py` -/

/-- One entry of an `EchoTool.parameters` schema
(`{"type": ..., "required": ...}`). -/
structure ParamSpec where
  type : String
  required : Bool
deriving DecidableEq, Repr

/-- `EchoTool`: the named, schema-described wrapper around a callable.  The
callable itself is represented by an opaque identity `funcId`; its behaviour
only matters inside a provider round trip, where tool implementations are
modelled separately. -/
structure EchoTool where
  name : String
  funcId : Nat
  description : String
  parameters : List (String × ParamSpec)
deriving DecidableEq, Repr

/-- `EchoTool.to_dict()`: `{"name": ..., "description": ..., "parameters": ...}`,
the wire shape handed to a text provider as one element of `tools`. -/
structure ToolDict where
  name : String
  description : String
  parameters : List (String × ParamSpec)
deriving DecidableEq, Repr

def EchoTool.toDict (t : EchoTool) : ToolDict :=
  ⟨t.name, t.description, t.parameters⟩

/-! ## `echo_kernel/EchoKernel.py` -/

/-- The provider capability interfaces of the framework
(`ITextProvider`, `IEmbeddingProvider`, `ITextMemory`, `IStorageProvider`). -/
inductive ProviderIface where
  | text
  | embedding
  | memory
  | storage
deriving DecidableEq, Repr

/-- A registered provider object: its Python identity and the set of capability
interfaces it satisfies (`isinstance` checks).  The behaviour of a provider's
`generate_text` is supplied separately by an environment mapping provider
identities to functions. -/
structure Provider where
  id : Nat
  ifaces : List ProviderIface
deriving DecidableEq, Repr

def Provider.isText (p : Provider) : Bool := p.ifaces.contains ProviderIface.text
def Provider.isEmbedding (p : Provider) : Bool := p.ifaces.contains ProviderIface.embedding
def Provider.isMemory (p : Provider) : Bool := p.ifaces.contains ProviderIface.memory
def Provider.isStorage (p : Provider) : Bool := p.ifaces.contains ProviderIface.storage

/-- The mutable state of an `EchoKernel`: the four provider lists and the tool
dict set up by `__init__`. -/
structure KernelState where
  textProviders : List Provider
  embeddingProviders : List Provider
  memoryProviders : List Provider
  storageProviders : List Provider
  tools : List (String × EchoTool)
deriving Repr

/-- `EchoKernel()` with no constructor arguments: all collections empty. -/
def emptyKernel : KernelState := ⟨[], [], [], [], []⟩

/-- Membership test used by `register_provider`'s duplicate check
(`provider not in self._text_providers and ...`); provider equality is Python
object identity. -/
def KernelState.hasProvider (k : KernelState) (p : Provider) : Bool :=
  (k.textProviders ++ k.embeddingProviders ++ k.memoryProviders ++ k.storageProviders).any
    (fun q => q.id = p.id)

/-- `EchoKernel.register_provider`: skip duplicates, then classify by the first
matching capability interface; an unrecognized provider is silently ignored. -/
def registerProvider (k : KernelState) (p : Provider) : KernelState :=
  if k.hasProvider p then k
  else if p.isText then { k with textProviders := k.textProviders ++ [p] }
  else if p.isEmbedding then { k with embeddingProviders := k.embeddingProviders ++ [p] }
  else if p.isMemory then { k with memoryProviders := k.memoryProviders ++ [p] }
  else if p.isStorage then { k with storageProviders := k.storageProviders ++ [p] }
  else k

/-- `EchoKernel.register_tool` on an `EchoTool` instance:
`self._tools[tool.name] = tool` (the callable branch of the source also ends in
exactly this dict store, after synthesizing an `EchoTool`). -/
def registerTool (k : KernelState) (t : EchoTool) : KernelState :=
  { k with tools := dictSet k.tools t.name t }

/-- `EchoKernel.get_tool`. -/
def getTool (k : KernelState) (name : String) : Option EchoTool :=
  dictGet k.tools name

/-- `EchoKernel.clear_providers`: clears the four provider lists *and* the tool
dict (lines 195-201 of the source). -/
def clearProviders (_k : KernelState) : KernelState :=
  ⟨[], [], [], [], []⟩

/-- `EchoKernel.clear_tools`. -/
def clearTools (k : KernelState) : KernelState :=
  { k with tools := [] }

/-- `EchoKernel.get_tool_definitions`: `[tool.to_dict() for tool in self.tools]`,
where `self.tools` is `list(self._tools.values())`. -/
def getToolDefinitions (k : KernelState) : List ToolDict :=
  (k.tools.map Prod.snd).map EchoTool.toDict

/-- A tool implementation as seen by a provider round trip: from the serialized
argument payload to the tool's string result, or to a raised exception (JSON
deserialization of the arguments and the callable itself are modelled
together, since a failure of either surfaces as one raised exception). -/
def ToolImpl : Type := String → Except PyError String

/-- The argument record a text provider's `generate_text` receives.  `context`
is the opaque context dict forwarded by the kernel, reduced to its `"messages"`
payload identity; the claims never inspect it. -/
structure GenTextArgs where
  prompt : String
  systemMessage : String
  context : Option (List (String × String))
  temperature : Rat
  maxTokens : Int
  topP : Rat
  frequencyPenalty : Rat
  presencePenalty : Rat
  tools : Option (List ToolDict)
  toolImplementations : Option (List (String × ToolImpl))

/-- The caller-side arguments of `EchoKernel.generate_text` (note: the method
has *no* `tool_implementations` parameter). -/
structure GenTextCall where
  prompt : String
  systemPrompt : Option String
  tools : Option (List ToolDict)
  temperature : Rat
  maxTokens : Int
  topP : Rat
  frequencyPenalty : Rat
  presencePenalty : Rat
  context : Option (List (String × String))

/-- The argument record `EchoKernel.generate_text` passes to the chosen text
provider: `tools` is the caller's list or, when omitted,
`get_tool_definitions()`; `system_message` is `system_prompt or ""`; no
`tool_implementations` keyword is passed, so the provider sees its default
`None`. -/
def kernelProviderArgs (k : KernelState) (c : GenTextCall) : GenTextArgs :=
  { prompt := c.prompt
    systemMessage := c.systemPrompt.getD ""
    context := c.context
    temperature := c.temperature
    maxTokens := c.maxTokens
    topP := c.topP
    frequencyPenalty := c.frequencyPenalty
    presencePenalty := c.presencePenalty
    tools := some (match c.tools with
      | some ts => ts
      | none => getToolDefinitions k)
    toolImplementations := none }

/-- `EchoKernel.generate_text`.  `env` gives each provider identity its
`generate_text` behaviour on the received argument record.  Raises
`ValueError("No text providers registered")` when the text-provider list is
empty, scans the list for the first `ITextProvider` instance and returns its
result unmodified, and raises the same `ValueError` if no list entry passes
the `isinstance` check. -/
def kernelGenerateText (env : Nat → GenTextArgs → String) (k : KernelState)
    (c : GenTextCall) : Except PyError String :=
  if k.textProviders.isEmpty then
    .error (valueError "No text providers registered")
  else
    match k.textProviders.find? (fun p => p.isText) with
    | some p => .ok (env p.id (kernelProviderArgs k c))
    | none => .error (valueError "No text providers registered")

/-! ## `echo_kernel/providers/OpenAITextProvider.py` -/

/-- One structured tool-call request returned by the backend
(`tool_call.id`, `tool_call.function.name`, `tool_call.function.arguments`). -/
structure ToolCallReq where
  id : String
  fname : String
  arguments : String
deriving DecidableEq, Repr

/-- `response.choices[0].message`: optional final text plus the (possibly
empty) list of tool-call requests. -/
structure BackendMsg where
  content : Option String
  toolCalls : List ToolCallReq
deriving DecidableEq, Repr

/-- A message of the conversation list built by `OpenAITextProvider.generate_text`.
The assistant's own tool-call message is appended as the raw message object. -/
inductive OAMsg where
  | system (content : String)
  | user (content : String)
  | assistant (m : BackendMsg)
  | toolResult (toolCallId : String) (name : String) (content : String)
deriving DecidableEq, Repr

/-- `OpenAITextProvider.call_tool`: the Python truthiness test
`if tool_implementations and tool_name in tool_implementations` sends a `None`
or empty dict to the not-found message; a found implementation is run inside
`try`, so a raised exception (including a JSON-argument parse failure) becomes
the `"Error executing tool ..."` message.  The second component records
whether the implementation itself was actually invoked. -/
def oaCallTool (impls : Option (List (String × ToolImpl))) (name args : String) :
    String × Bool :=
  match impls with
  | none => ("Tool " ++ name ++ " not found", false)
  | some l =>
      if l.isEmpty then ("Tool " ++ name ++ " not found", false)
      else
        match dictGet l name with
        | none => ("Tool " ++ name ++ " not found", false)
        | some f =>
            match f args with
            | .ok r => (r, true)
            | .error e => ("Error executing tool " ++ name ++ ": " ++ e.msg, true)

/-- Outcome of the OpenAI provider's `while True` round-trip loop, run with a
fuel bound: the returned `message.content`, the message list sent in each
backend request, and the (name, arguments) of each tool implementation that
was actually invoked.  `outOfFuel` marks a run that has not terminated within
the allotted rounds (the Python loop is unbounded). -/
inductive OAOutcome where
  | finished (content : Option String) (requests : List (List OAMsg))
      (implCalls : List (String × String))
  | outOfFuel (requests : List (List OAMsg)) (implCalls : List (String × String))

/-- One batch of tool calls: invoke each requested tool in backend order,
appending its result as a `tool`-role message carrying the originating call id
(`str(tool_result)` is the identity on our string results). -/
def oaProcessToolCalls (impls : Option (List (String × ToolImpl)))
    (calls : List ToolCallReq) (messages : List OAMsg)
    (implCalls : List (String × String)) : List OAMsg × List (String × String) :=
  match calls with
  | [] => (messages, implCalls)
  | tc :: rest =>
      let r := oaCallTool impls tc.fname tc.arguments
      oaProcessToolCalls impls rest
        (messages ++ [OAMsg.toolResult tc.id tc.fname r.1])
        (implCalls ++ if r.2 then [(tc.fname, tc.arguments)] else [])

/-- The `while True` loop of `OpenAITextProvider.generate_text`: request a
completion, and either return the final content, or append the assistant
tool-call message plus one tool-result message per requested call and loop. -/
def oaLoop (backend : Nat → List OAMsg → BackendMsg)
    (impls : Option (List (String × ToolImpl))) :
    Nat → Nat → List OAMsg → List (List OAMsg) → List (String × String) → OAOutcome
  | 0, _, _, requests, implCalls => .outOfFuel requests implCalls
  | fuel + 1, callIdx, messages, requests, implCalls =>
      let resp := backend callIdx messages
      let requests := requests ++ [messages]
      if resp.toolCalls.isEmpty then
        .finished resp.content requests implCalls
      else
        let messages := messages ++ [OAMsg.assistant resp]
        let step := oaProcessToolCalls impls resp.toolCalls messages implCalls
        oaLoop backend impls fuel (callIdx + 1) step.1 requests step.2

/-- The initial message list of `OpenAITextProvider.generate_text`: the system
message when non-empty, then the `context["messages"]` payload when present,
then the user prompt. -/
def oaInitMessages (prompt systemMessage : String) (ctx : Option (List OAMsg)) :
    List OAMsg :=
  (if systemMessage = "" then [] else [OAMsg.system systemMessage]) ++
    ctx.getD [] ++ [OAMsg.user prompt]

/-- `OpenAITextProvider.generate_text`, with the chat backend as an oracle from
(call index, request messages) to the response message and the unbounded loop
run on `fuel` rounds. -/
def oaGenerateText (backend : Nat → List OAMsg → BackendMsg)
    (impls : Option (List (String × ToolImpl)))
    (prompt systemMessage : String) (ctx : Option (List OAMsg)) (fuel : Nat) :
    OAOutcome :=
  oaLoop backend impls fuel 0 (oaInitMessages prompt systemMessage ctx) [] []

/-! ## `echo_kernel/providers/AzureOpenAITextProvider.py` -/

/-- A message of the Azure provider's conversation list.  Its tool-result
message carries no `name` field, and `context` (when truthy) is inserted as a
whole `user`-role message. -/
inductive AzMsg where
  | system (content : String)
  | user (content : String)
  | assistant (m : BackendMsg)
  | toolResult (toolCallId : String) (content : String)
deriving DecidableEq, Repr

/-- `AzureOpenAITextProvider.call_tool`: no `try` block and no `None` check.
A missing name yields the not-found message; a found implementation that
raises propagates its exception, and `tool_name in None` raises `TypeError`.
The `Bool` records whether the implementation was invoked. -/
def azCallTool (impls : Option (List (String × ToolImpl))) (name args : String) :
    Except PyError (String × Bool) :=
  match impls with
  | none => .error ⟨"TypeError", "argument of type \x27NoneType\x27 is not iterable"⟩
  | some l =>
      match dictGet l name with
      | none => .ok ("Tool " ++ name ++ " not found", false)
      | some f =>
          match f args with
          | .ok r => .ok (r, true)
          | .error e => .error e

/-- Outcome of the Azure provider loop: as `OAOutcome`, plus a raised
exception, which the Azure tool dispatch can propagate. -/
inductive AzOutcome where
  | finished (content : Option String) (requests : List (List AzMsg))
      (implCalls : List (String × String))
  | raised (e : PyError) (requests : List (List AzMsg))
      (implCalls : List (String × String))
  | outOfFuel (requests : List (List AzMsg)) (implCalls : List (String × String))

/-- One batch of Azure tool calls, in backend order; a raised exception aborts
the batch (and the whole `generate_text` call). -/
def azProcessToolCalls (impls : Option (List (String × ToolImpl)))
    (calls : List ToolCallReq) (messages : List AzMsg)
    (implCalls : List (String × String)) :
    Except (PyError × List (String × String)) (List AzMsg × List (String × String)) :=
  match calls with
  | [] => .ok (messages, implCalls)
  | tc :: rest =>
      match azCallTool impls tc.fname tc.arguments with
      | .error e => .error (e, implCalls)
      | .ok r =>
          azProcessToolCalls impls rest
            (messages ++ [AzMsg.toolResult tc.id r.1])
            (implCalls ++ if r.2 then [(tc.fname, tc.arguments)] else [])

/-- The `while True` loop of `AzureOpenAITextProvider.generate_text`. -/
def azLoop (backend : Nat → List AzMsg → BackendMsg)
    (impls : Option (List (String × ToolImpl))) :
    Nat → Nat → List AzMsg → List (List AzMsg) → List (String × String) → AzOutcome
  | 0, _, _, requests, implCalls => .outOfFuel requests implCalls
  | fuel + 1, callIdx, messages, requests, implCalls =>
      let resp := backend callIdx messages
      let requests := requests ++ [messages]
      if resp.toolCalls.isEmpty then
        .finished resp.content requests implCalls
      else
        let messages := messages ++ [AzMsg.assistant resp]
        match azProcessToolCalls impls resp.toolCalls messages implCalls with
        | .error e => .raised e.1 requests e.2
        | .ok step => azLoop backend impls fuel (callIdx + 1) step.1 requests step.2

/-- The initial Azure message list: `[system, user]`, with a truthy context
inserted at index 1 as a whole `user` message. -/
def azInitMessages (prompt systemMessage : String) (ctx : Option String) :
    List AzMsg :=
  AzMsg.system systemMessage ::
    ((match ctx with | some c => [AzMsg.user c] | none => []) ++ [AzMsg.user prompt])

/-- `AzureOpenAITextProvider.generate_text` (the request is sent with or
without the `tools` catalog depending on its truthiness; the backend oracle
already accounts for it). -/
def azGenerateText (backend : Nat → List AzMsg → BackendMsg)
    (impls : Option (List (String × ToolImpl)))
    (prompt systemMessage : String) (ctx : Option String) (fuel : Nat) :
    AzOutcome :=
  azLoop backend impls fuel 0 (azInitMessages prompt systemMessage ctx) [] []

/-! ## `echo_kernel/agents/SpecialistRouterAgent.py` -/

/-- `", ".join(self.agents.keys())`. -/
def joinAgentNames (agents : List (String × (String → String))) : String :=
  String.intercalate ", " (agents.map Prod.fst)

/-- The `while attempts < self.max_retries` loop of
`SpecialistRouterAgent.route_with_validation`, recursing on the remaining
attempt budget.  `gen` is the kernel text-generation oracle, indexed by how
many routing decisions have been requested so far; each registered specialist
is a task-to-result function.  Returns the outcome together with the total
number of routing decisions requested. -/
def routeAux (gen : Nat → String → String)
    (agents : List (String × (String → String)))
    (validator : Option (String → Bool)) (task : String) (maxRetries : Nat) :
    Nat → String → Nat → Except PyError String × Nat
  | 0, _, calls =>
      (.error (valueError
        ("Failed to route task after " ++ toString maxRetries ++ " attempts")), calls)
  | remaining + 1, routingPrompt, calls =>
      let agentName := pyStrip (gen calls routingPrompt)
      match dictGet agents agentName with
      | some agentRun =>
          let result := agentRun task
          match validator with
          | none => (.ok result, calls + 1)
          | some v =>
              if v result then (.ok result, calls + 1)
              else
                routeAux gen agents validator task maxRetries remaining
                  ("Previous result failed validation. Please choose a different agent from: "
                    ++ joinAgentNames agents ++ "\nSubtask: " ++ task) (calls + 1)
      | none =>
          routeAux gen agents validator task maxRetries remaining
            ("The previous agent name was invalid. Please choose from the following list: "
              ++ joinAgentNames agents ++ "\nSubtask: " ++ task) (calls + 1)

/-- `SpecialistRouterAgent.route_with_validation`: the initial routing prompt is
`f"{self.router_prompt}\nSubtask: {task}"`; exhausting the retry budget raises
`ValueError(f"Failed to route task after {self.max_retries} attempts")`. -/
def routeWithValidation (gen : Nat → String → String)
    (agents : List (String × (String → String)))
    (validator : Option (String → Bool)) (routerPrompt task : String)
    (maxRetries : Nat) : Except PyError String × Nat :=
  routeAux gen agents validator task maxRetries maxRetries
    (routerPrompt ++ "\nSubtask: " ++ task) 0

/-! ## `echo_kernel/agents/CollaborativeAgent.py` -/

/-- `CollaborativeAgent._build_agent_a_prompt`. -/
def buildAgentAPrompt (stopPhrase task currentResult : String) (iteration : Nat) :
    String :=
  if iteration = 0 then
    "Original task: " ++ task ++ "\n\nPlease start working on this task."
  else
    "Original task: " ++ task ++ "\n\nCurrent result:\n" ++ currentResult ++
      "\n\nPlease review and provide feedback or improvements. If you\x27re satisfied, end your response with \x27"
      ++ stopPhrase ++ "\x27."

/-- `CollaborativeAgent._build_agent_b_prompt` (for the default
`agent_a_role = "Agent A"`). -/
def buildAgentBPrompt (stopPhrase agentARole task agentAFeedback : String)
    (iteration : Nat) : String :=
  if iteration = 0 then
    "Original task: " ++ task ++ "\n\n" ++ agentARole ++ "\x27s work:\n" ++
      agentAFeedback ++ "\n\nPlease continue or improve upon this work."
  else
    "Original task: " ++ task ++ "\n\n" ++ agentARole ++ "\x27s feedback:\n" ++
      agentAFeedback ++
      "\n\nPlease implement the feedback and improve the work. If you\x27re satisfied with the result, end your response with \x27"
      ++ stopPhrase ++ "\x27."

/-- Result of a `CollaborativeAgent.collaborate` run: its return value or the
exception it raised, the final `iteration_count`, and the prompt each
sub-agent was invoked with, in order. -/
structure CollabOut where
  outcome : Except PyError String
  iterationCount : Nat
  aPrompts : List String
  bPrompts : List String
deriving Repr

/-- The `for i in range(self.max_iterations)` loop of
`CollaborativeAgent.collaborate`, recursing on the remaining iterations.
`logFlag` is the (constant) result of reading `kernel.agent_logging_enabled`:
that attribute is read at the top of every iteration before agent A runs, at
each later print site, and once after the loop, so when the read raises, the
very first read aborts the run; a successful read is just a no-op print guard.
When agent A's reply contains the stop phrase (case-insensitively) the loop
breaks and falls through to the post-loop return of the *current* shared
result; the `if stop` check after agent B's turn is unreachable (the only
assignment to `stop` is immediately followed by `break`) but is kept. -/
def collabAux (logFlag : Except PyError Bool) (agentA agentB : String → String)
    (stopPhrase agentARole task : String) :
    Nat → Nat → String → Bool → List String → List String → CollabOut
  | 0, i, currentResult, _, aPs, bPs =>
      -- loop finished (or never entered): one more flag read guards the
      -- final print, then `current_result` is returned
      match logFlag with
      | .error e => ⟨.error e, i, aPs, bPs⟩
      | .ok _ => ⟨.ok currentResult, i, aPs, bPs⟩
  | remaining + 1, i, currentResult, stop, aPs, bPs =>
      match logFlag with
      | .error e => ⟨.error e, i + 1, aPs, bPs⟩
      | .ok _ =>
          let aPrompt := buildAgentAPrompt stopPhrase task currentResult i
          let aRes := agentA aPrompt
          let aPs := aPs ++ [aPrompt]
          if lowerContains aRes stopPhrase then
            -- break: fall through to the post-loop return
            match logFlag with
            | .error e => ⟨.error e, i + 1, aPs, bPs⟩
            | .ok _ => ⟨.ok currentResult, i + 1, aPs, bPs⟩
          else
            let bPrompt := buildAgentBPrompt stopPhrase agentARole task aRes i
            let bRes := agentB bPrompt
            let bPs := bPs ++ [bPrompt]
            if stop then ⟨.ok bRes, i + 1, aPs, bPs⟩
            else collabAux logFlag agentA agentB stopPhrase agentARole task
              remaining (i + 1) bRes stop aPs bPs

/-- `CollaborativeAgent.collaborate`: `current_result` starts as `""`,
`_iteration_count` as `0`, `stop` as `False`. -/
def collaborate (logFlag : Except PyError Bool) (agentA agentB : String → String)
    (maxIterations : Nat) (stopPhrase agentARole task : String) : CollabOut :=
  collabAux logFlag agentA agentB stopPhrase agentARole task maxIterations 0 "" false [] []

/-! ## `echo_kernel/agents/LoopAgent.py` -/

/-- The `stop_condition` parameter of `LoopAgent.iterate`: a callable over the
result text, a substring, or anything else (in particular the default `None`),
which falls back to the agent's configured stop phrase. -/
inductive StopCondition where
  | ofCallable (f : String → Bool)
  | ofString (s : String)
  | pyNone

/-- The stop test of one `LoopAgent.iterate` iteration. -/
def evalStop (cond : StopCondition) (stopPhrase result : String) : Bool :=
  match cond with
  | .ofCallable f => f result
  | .ofString s => lowerContains result s
  | .pyNone => lowerContains result stopPhrase

/-- The `for i in range(self.max_iterations)` loop of `LoopAgent.iterate`,
called with `remaining ≥ 1`; returns the final `result` and `iteration_count`.
Each iteration runs the inner agent on the current task, breaks when the stop
test fires, and otherwise continues with
`f"Improve the previous output.\n\n{result}"`. -/
def loopAux (agentRun : String → String) (stopPhrase : String)
    (cond : StopCondition) : Nat → Nat → String → String × Nat
  | 0, i, _ => ("", i)  -- unreachable: the loop body always runs with fuel ≥ 1
  | remaining + 1, i, currentTask =>
      let result := agentRun currentTask
      if evalStop cond stopPhrase result then (result, i + 1)
      else if remaining = 0 then (result, i + 1)
      else loopAux agentRun stopPhrase cond remaining (i + 1)
        ("Improve the previous output.\n\n" ++ result)

/-- `LoopAgent.iterate`.  With `max_iterations = 0` the loop never runs and the
final `return result` reads an unbound local, raising `UnboundLocalError`. -/
def loopIterate (agentRun : String → String) (stopPhrase : String)
    (maxIterations : Nat) (cond : StopCondition) (task : String) :
    Except PyError (String × Nat) :=
  match maxIterations with
  | 0 => .error ⟨"UnboundLocalError",
      "local variable \x27result\x27 referenced before assignment"⟩
  | m + 1 => .ok (loopAux agentRun stopPhrase cond (m + 1) 0 task)

/-- The result of iteration `n` (0-based) of a `LoopAgent.iterate` run that
never stops early: iteration 0 sees the original task, iteration `n+1` sees
the improve-prompt built from iteration `n`'s result. -/
def nthLoopResult (agentRun : String → String) (task : String) : Nat → String
  | 0 => agentRun task
  | n + 1 =>
      agentRun ("Improve the previous output.\n\n" ++ nthLoopResult agentRun task n)

/-! ## `echo_kernel/agents/MemoryAgent.py` -/

/-- One entry returned by `search_similar`: `r.get('text', str(r))` reads the
`"text"` key when present, else the entry's string rendering. -/
structure SearchResult where
  text : Option String
  render : String

def SearchResult.entryText (r : SearchResult) : String :=
  match r.text with
  | some t => t
  | none => r.render

/-- The memory interface used by `MemoryAgent.process_with_memory`: a similarity
search (query, limit) and a text write (text, metadata), both fallible. -/
structure MemoryIface where
  searchSimilar : String → Nat → Except PyError (List SearchResult)
  addText : String → List (String × String) → Except PyError Unit

/-- `MemoryAgent.process_with_memory`: search for similar entries
(`limit=10`), build the context bullet list, persist the original message with
`{"timestamp": "now", "agent": self.name}`, then run the inner agent on the
(possibly augmented) prompt.  No step is wrapped in a `try` block. -/
def processWithMemory (memory : MemoryIface)
    (agentRun : String → Except PyError String) (agentName message : String) :
    Except PyError String := do
  let similar ← memory.searchSimilar message 10
  let contextText :=
    if similar.isEmpty then ""
    else String.intercalate "\n" (similar.map (fun r => "- " ++ r.entryText))
  let _ ← memory.addText message [("timestamp", "now"), ("agent", agentName)]
  let fullPrompt :=
    if contextText = "" then message
    else "Previous relevant context:\n" ++ contextText ++ "\n\nCurrent message: "
      ++ message
  agentRun fullPrompt

/-! ## `echo_kernel/agents/TaskDecomposerAgent.py` and the
`agent_logging_enabled` attribute -/

/-- The plan prompt built by `TaskDecomposerAgent.coordinate_execution`. -/
def planPrompt (task : String) : String :=
  "You are a planning agent.\nDecompose the following task into 3–5 concrete, sequential subtasks:\n\nTask: "
    ++ task ++ "\n\nReturn the list of subtasks as plain numbered steps."

/-- `TaskDecomposerAgent._parse_subtasks`: split the stripped plan into lines,
take the text after the first `.` (else the first `-`) of each line that has
one, strip it, and drop empties. -/
def parseSubtasks (planText : String) : List String :=
  let lines := pySplitLines (pyStrip planText)
  let subtasks := lines.foldl (fun acc line =>
    if line.toList.contains '.' then acc ++ [pyStrip (splitFirst line '.').2]
    else if line.toList.contains '-' then acc ++ [pyStrip (splitFirst line '-').2]
    else acc) []
  subtasks.filter (fun s => s ≠ "")

/-- The instance attributes `EchoKernel.__init__` assigns (source lines
56-71). -/
def echoKernelInstanceAttrs : List String :=
  ["_text_providers", "_embedding_providers", "_memory_providers",
   "_storage_providers", "_tools"]

/-- The attributes of the `EchoKernel` class body: its properties and
methods. -/
def echoKernelClassAttrs : List String :=
  ["text_providers", "embedding_providers", "memory_providers", "tools",
   "storage_provider", "register_provider", "register_tool", "get_tool",
   "get_service", "get_providers_by_type", "clear_providers", "clear_tools",
   "get_tool_definitions", "execute_tool", "add_text_to_memory",
   "search_memory", "generate_text_with_tools", "generate_text",
   "generate_embedding"]

/-- Reading `kernel.agent_logging_enabled` on an `EchoKernel` instance: the
name is looked up among the instance attributes set by `__init__` and the
class attributes; a name found in neither raises `AttributeError`. -/
def echoKernelLoggingFlag : Except PyError Bool :=
  if (echoKernelInstanceAttrs ++ echoKernelClassAttrs).contains "agent_logging_enabled"
  then .ok false  -- never taken: the lookup always falls through
  else .error (attrError "EchoKernel" "agent_logging_enabled")

/-- `TaskDecomposerAgent.coordinate_execution`: generate a plan through
`kernel.generate_text` (the kernel's text-generation path, abstracted as
`kernelGen` applied to the plan prompt), read `kernel.agent_logging_enabled`,
parse the subtasks, and execute them in order against the executor agent
(reading the flag again before each one), labelling and joining the results.
Returns the outcome together with the subtasks actually executed. -/
def coordinateExecution (kernelGen : String → Except PyError String)
    (logFlag : Except PyError Bool) (executor : String → String) (task : String) :
    Except PyError String × List String :=
  match kernelGen (planPrompt task) with
  | .error e => (.error e, [])
  | .ok plan =>
      match logFlag with
      | .error e => (.error e, [])
      | .ok _ =>
          let subtasks := parseSubtasks plan
          -- the flag is re-read before each subtask; a successful first read
          -- (the flag is one fixed attribute) means those reads succeed too
          let results := (subtasks.enum.map (fun p =>
            "Subtask " ++ toString (p.1 + 1) ++ " Result:\n" ++ executor p.2 ++ "\n"))
          (.ok (String.intercalate "\n" results), subtasks)

/-! ## Concrete fixtures used by witnesses and counterexamples -/

/-- A generation call leaving every optional argument at its Python default. -/
def sampleCall : GenTextCall :=
  { prompt := "Test prompt", systemPrompt := none, tools := none,
    temperature := 7/10, maxTokens := 1000, topP := 1,
    frequencyPenalty := 0, presencePenalty := 0, context := none }

/-- A provider environment whose every provider answers a fixed string. -/
def sampleEnv : Nat → GenTextArgs → String := fun _ _ => "provider output"

/-- A text provider object. -/
def sampleProvider : Provider := ⟨0, [ProviderIface.text]⟩

/-- A registered tool. -/
def sampleTool : EchoTool := ⟨"calc", 7, "A calculator", []⟩

/-- A kernel holding one registered text provider and one registered tool. -/
def c1Kernel : KernelState :=
  registerTool (registerProvider emptyKernel sampleProvider) sampleTool

/-! ## Claim theorems -/

/-- C10: `clear_providers` empties the four provider lists and also the tool
mapping, so after it `get_tool` returns `None` for every name: registered
tools do not survive a providers-only clear. -/
theorem clear_providers_clears_tools (k : KernelState) (name : String) :
    getTool (clearProviders k) name = none ∧
    (clearProviders k).textProviders = [] ∧
    (clearProviders k).embeddingProviders = [] ∧
    (clearProviders k).memoryProviders = [] ∧
    (clearProviders k).storageProviders = [] ∧
    (clearProviders k).tools = [] := by
  simp [clearProviders, getTool, dictGet]

/-- C2 (counterexample): a fresh kernel with zero text providers makes
`generate_text` raise `ValueError("No text providers registered")`, whose
class is not the `NoProviderError` named by the claim (no such class exists in
the code base). -/
theorem generate_text_no_provider_is_valueerror :
    kernelGenerateText sampleEnv emptyKernel sampleCall =
      .error ⟨"ValueError", "No text providers registered"⟩ ∧
    (valueError "No text providers registered").className ≠ "NoProviderError" := by
  exact ⟨rfl, by decide⟩

/-- C2 (amended): with zero registered text providers `generate_text` raises
`ValueError("No text providers registered")`; with exactly one registered text
provider it returns exactly the string that provider's `generate_text`
returned, untransformed. -/
theorem generate_text_provider_dispatch (env : Nat → GenTextArgs → String)
    (k k' : KernelState) (c : GenTextCall) (p : Provider)
    (hempty : k.textProviders = [])
    (hone : k'.textProviders = [p]) (hp : p.isText = true) :
    kernelGenerateText env k c =
      .error (valueError "No text providers registered") ∧
    kernelGenerateText env k' c = .ok (env p.id (kernelProviderArgs k' c)) := by
  constructor
  · simp [kernelGenerateText, hempty]
  · simp [kernelGenerateText, hone, List.find?, hp]

/-- C2 (witness): the dispatch theorem applied to a concrete empty kernel and a
concrete one-provider kernel. -/
theorem generate_text_provider_dispatch_witness :
    kernelGenerateText sampleEnv emptyKernel sampleCall =
      .error (valueError "No text providers registered") ∧
    kernelGenerateText sampleEnv (registerProvider emptyKernel sampleProvider)
      sampleCall =
      .ok (sampleEnv sampleProvider.id
        (kernelProviderArgs (registerProvider emptyKernel sampleProvider) sampleCall)) :=
  generate_text_provider_dispatch sampleEnv emptyKernel
    (registerProvider emptyKernel sampleProvider) sampleCall sampleProvider
    rfl rfl rfl

/-- C1 (counterexample): a kernel with one registered text provider and one
registered tool, called with both optional tool arguments omitted, passes the
registered tool definitions as `tools` but passes *no* tool implementations:
the provider receives `tool_implementations = None`, not the registered
tools. -/
theorem generate_text_omits_tool_implementations :
    (kernelProviderArgs c1Kernel sampleCall).toolImplementations = none ∧
    c1Kernel.tools = [("calc", sampleTool)] ∧
    kernelGenerateText sampleEnv c1Kernel sampleCall =
      .ok (sampleEnv 0 (kernelProviderArgs c1Kernel sampleCall)) := by
  exact ⟨rfl, rfl, rfl⟩

/-- C1 (amended): when the caller omits `tools`, `generate_text` forwards to
the first text provider the definitions of all registered tools as the
`tools` argument; but `generate_text` has no `tool_implementations` parameter
and always calls the provider with `tool_implementations = None`, so
registered tools are described to the backend yet not invocable by default. -/
theorem generate_text_tool_defaults (env : Nat → GenTextArgs → String)
    (k : KernelState) (c : GenTextCall) (p : Provider)
    (homit : c.tools = none)
    (hfind : k.textProviders.find? (fun q => q.isText) = some p) :
    (kernelProviderArgs k c).tools = some (getToolDefinitions k) ∧
    (kernelProviderArgs k c).toolImplementations = none ∧
    kernelGenerateText env k c = .ok (env p.id (kernelProviderArgs k c)) := by
  refine ⟨by simp [kernelProviderArgs, homit], rfl, ?_⟩
  unfold kernelGenerateText
  cases h : k.textProviders with
  | nil => rw [h] at hfind; simp [List.find?] at hfind
  | cons a l => rw [h] at hfind; simp only [List.isEmpty_cons, hfind]; simp

/-- C1 (witness): the defaults theorem applied to the concrete one-provider
one-tool kernel. -/
theorem generate_text_tool_defaults_witness :
    (kernelProviderArgs c1Kernel sampleCall).tools =
      some (getToolDefinitions c1Kernel) ∧
    (kernelProviderArgs c1Kernel sampleCall).toolImplementations = none ∧
    kernelGenerateText sampleEnv c1Kernel sampleCall =
      .ok (sampleEnv sampleProvider.id (kernelProviderArgs c1Kernel sampleCall)) :=
  generate_text_tool_defaults sampleEnv c1Kernel sampleCall sampleProvider rfl rfl

/-- Helper: under a validator that rejects every result, every round of
`route_with_validation` (valid or invalid routing decision alike) falls
through to the next attempt, so the whole budget is consumed and the final
`ValueError` is raised, with one routing decision requested per attempt. -/
lemma routeAux_all_rejected (gen : Nat → String → String)
    (agents : List (String × (String → String))) (v : String → Bool)
    (task : String) (m : Nat) (hv : ∀ s, v s = false) :
    ∀ (remaining : Nat) (rp : String) (calls : Nat),
      routeAux gen agents (some v) task m remaining rp calls =
        (.error (valueError
          ("Failed to route task after " ++ toString m ++ " attempts")),
         calls + remaining) := by
  intro remaining
  induction remaining with
  | zero => intro rp calls; simp [routeAux]
  | succ r ih =>
      intro rp calls
      unfold routeAux
      cases h : dictGet agents (pyStrip (gen calls rp)) with
      | some a => simp [h, hv, ih]; omega
      | none => simp [h, ih]; omega

/-- C5 (counterexample): with `max_retries = 2` and an always-failing
validator, `route_with_validation` performs exactly 2 routing attempts and
then raises `ValueError("Failed to route task after 2 attempts")` — not the
`RoutingExhaustedError` named by the claim (no such class exists in the code
base). -/
theorem route_exhaustion_is_valueerror :
    routeWithValidation (fun _ _ => "a") [("a", fun _ => "result")]
      (some (fun _ => false)) "Pick an agent." "do the task" 2 =
      (.error ⟨"ValueError", "Failed to route task after 2 attempts"⟩, 2) ∧
    (valueError "Failed to route task after 2 attempts").className ≠
      "RoutingExhaustedError" := by
  exact ⟨rfl, by decide⟩

/-- C5 (amended): for every router configuration with `max_retries = 2` and a
validator that rejects every result, `route_with_validation` performs exactly
2 routing attempts (not 1, not 3) and then raises `ValueError` naming the
attempt count (`"Failed to route task after 2 attempts"`). -/
theorem route_with_validation_two_attempts (gen : Nat → String → String)
    (agents : List (String × (String → String))) (v : String → Bool)
    (routerPrompt task : String) (hv : ∀ s, v s = false) :
    routeWithValidation gen agents (some v) routerPrompt task 2 =
      (.error (valueError "Failed to route task after 2 attempts"), 2) := by
  unfold routeWithValidation
  rw [routeAux_all_rejected gen agents v task 2 hv]
  rfl

/-- C5 (witness): the exhaustion theorem applied to a concrete router run. -/
theorem route_with_validation_two_attempts_witness :
    routeWithValidation (fun _ _ => "a") [("a", fun _ => "result")]
      (some (fun _ => false)) "Pick an agent." "do the task" 2 =
      (.error (valueError "Failed to route task after 2 attempts"), 2) :=
  route_with_validation_two_attempts (fun _ _ => "a") [("a", fun _ => "result")]
    (fun _ => false) "Pick an agent." "do the task" (fun _ => rfl)

/-- C6: whenever Agent A's very first response contains the stop phrase as a
case-insensitive substring (and the kernel's logging flag is readable, which
any run reaching Agent A presupposes), Agent B is never invoked and
`collaborate` returns the pre-loop shared result `""`, not Agent A's own
text. -/
theorem collaborative_first_response_stop (b : Bool)
    (agentA agentB : String → String) (m : Nat)
    (stopPhrase aRole task : String)
    (hstop : lowerContains (agentA (buildAgentAPrompt stopPhrase task "" 0))
      stopPhrase = true) :
    collaborate (.ok b) agentA agentB (m + 1) stopPhrase aRole task =
      ⟨.ok "", 1, [buildAgentAPrompt stopPhrase task "" 0], []⟩ := by
  simp [collaborate, collabAux, hstop]

/-- C6 (witness): a concrete run whose Agent A immediately answers with the
stop phrase: the returned value is `""`, not Agent A's text, and Agent B's
prompt list is empty. -/
theorem collaborative_first_response_stop_witness :
    collaborate (.ok true) (fun _ => "Looks done. Final version.")
      (fun _ => "agent b text") (9 + 1) "Final version" "Agent A" "write a story" =
      ⟨.ok "", 1, [buildAgentAPrompt "Final version" "write a story" "" 0], []⟩ :=
  collaborative_first_response_stop true (fun _ => "Looks done. Final version.")
    (fun _ => "agent b text") 9 "Final version" "Agent A" "write a story" (by rfl)

/-- Helper: the `agent_logging_enabled` lookup on a plain `EchoKernel` raises
`AttributeError`, since neither `__init__` nor the class body defines that
name. -/
lemma echoKernelLoggingFlag_raises :
    echoKernelLoggingFlag = .error (attrError "EchoKernel" "agent_logging_enabled") := by
  rfl

/-- C9 (counterexample): `TaskDecomposerAgent.coordinate_execution` on an
`EchoKernel` with zero registered text providers raises
`ValueError("No text providers registered")` from the plan-generation call —
not the `AttributeError` the claim asserts for every call. -/
theorem coordinate_execution_no_provider_counterexample :
    coordinateExecution
      (fun p => kernelGenerateText sampleEnv emptyKernel
        { sampleCall with prompt := p })
      echoKernelLoggingFlag (fun s => s) "build a web site" =
      (.error ⟨"ValueError", "No text providers registered"⟩, []) ∧
    ("ValueError" : String) ≠ "AttributeError" := by
  exact ⟨rfl, by decide⟩

/-- C9 (amended): `CollaborativeAgent.collaborate` on a kernel whose
`agent_logging_enabled` read raises (as an `EchoKernel` does, the attribute
never being defined) always raises that `AttributeError`, before either
sub-agent is ever invoked; and `TaskDecomposerAgent.coordinate_execution`
raises it before executing any subtask whenever the kernel's plan-generation
call itself returns (with no text provider, that call raises `ValueError`
first instead). -/
theorem missing_logging_attribute_aborts (agentA agentB : String → String)
    (m : Nat) (stopPhrase aRole task : String)
    (kernelGen : String → Except PyError String) (executor : String → String)
    (task2 plan : String) (hplan : kernelGen (planPrompt task2) = .ok plan) :
    (collaborate echoKernelLoggingFlag agentA agentB m stopPhrase aRole task).outcome =
      .error (attrError "EchoKernel" "agent_logging_enabled") ∧
    (collaborate echoKernelLoggingFlag agentA agentB m stopPhrase aRole task).aPrompts
      = [] ∧
    (collaborate echoKernelLoggingFlag agentA agentB m stopPhrase aRole task).bPrompts
      = [] ∧
    coordinateExecution kernelGen echoKernelLoggingFlag executor task2 =
      (.error (attrError "EchoKernel" "agent_logging_enabled"), []) := by
  refine ⟨?_, ?_, ?_, ?_⟩
  · cases m <;> simp [collaborate, collabAux, echoKernelLoggingFlag_raises]
  · cases m <;> simp [collaborate, collabAux, echoKernelLoggingFlag_raises]
  · cases m <;> simp [collaborate, collabAux, echoKernelLoggingFlag_raises]
  · simp [coordinateExecution, hplan, echoKernelLoggingFlag_raises]

/-- C9 (witness): the abort theorem applied to a concrete collaborative run
and a concrete decomposer run whose kernel plan call succeeds. -/
theorem missing_logging_attribute_aborts_witness :
    (collaborate echoKernelLoggingFlag (fun _ => "a") (fun _ => "b") 10
      "Final version" "Agent A" "write").outcome =
      .error (attrError "EchoKernel" "agent_logging_enabled") ∧
    (collaborate echoKernelLoggingFlag (fun _ => "a") (fun _ => "b") 10
      "Final version" "Agent A" "write").aPrompts = [] ∧
    (collaborate echoKernelLoggingFlag (fun _ => "a") (fun _ => "b") 10
      "Final version" "Agent A" "write").bPrompts = [] ∧
    coordinateExecution (fun _ => .ok "1. step one") echoKernelLoggingFlag
      (fun s => s) "plan it" =
      (.error (attrError "EchoKernel" "agent_logging_enabled"), []) :=
  missing_logging_attribute_aborts (fun _ => "a") (fun _ => "b") 10
    "Final version" "Agent A" "write" (fun _ => .ok "1. step one") (fun s => s)
    "plan it" "1. step one" rfl

/-- Helper: one unfolding of the `LoopAgent.iterate` loop body. -/
lemma loopAux_step (ar : String → String) (sp : String) (c : StopCondition)
    (remaining i : Nat) (t : String) :
    loopAux ar sp c (remaining + 1) i t =
      (let result := ar t
       if evalStop c sp result then (result, i + 1)
       else if remaining = 0 then (result, i + 1)
       else loopAux ar sp c remaining (i + 1)
         ("Improve the previous output.\n\n" ++ result)) := rfl

/-- Helper: advancing the loop one iteration shifts the iteration-result
index. -/
lemma nthLoopResult_shift (ar : String → String) (task : String) (n : Nat) :
    nthLoopResult ar task (n + 1) =
      nthLoopResult ar ("Improve the previous output.\n\n" ++ ar task) n := by
  induction n with
  | zero => rfl
  | succ k ih => rw [nthLoopResult, ih, nthLoopResult]

/-- Helper: under a stop predicate that never fires, the loop runs its whole
budget and ends on the last iteration's result. -/
lemma loopAux_never_stop (ar : String → String) (sp : String) (g : String → Bool)
    (hg : ∀ s, g s = false) :
    ∀ (remaining i : Nat) (t : String),
      loopAux ar sp (.ofCallable g) (remaining + 1) i t =
        (nthLoopResult ar t remaining, i + remaining + 1) := by
  intro remaining
  induction remaining with
  | zero => intro i t; simp [loopAux, evalStop, hg, nthLoopResult]
  | succ r ih =>
      intro i t
      rw [loopAux_step]
      simp only [evalStop, hg, if_false, Bool.false_eq_true, Nat.succ_ne_zero,
        if_neg, ite_false]
      rw [ih, nthLoopResult_shift]
      simp only [Prod.mk.injEq, true_and]
      omega

/-- C7: a `LoopAgent` run with `max_iterations = 5` whose stop predicate first
fires on iteration 2's result returns iteration 2's result with
`iteration_count = 2`; a run whose predicate never fires raises no exception,
returns iteration 5's result and ends with
`iteration_count = max_iterations = 5`. -/
theorem loop_agent_stop_and_exhaust (ar : String → String) (f g : String → Bool)
    (sp task : String)
    (h1 : f (nthLoopResult ar task 0) = false)
    (h2 : f (nthLoopResult ar task 1) = true)
    (hg : ∀ s, g s = false) :
    loopIterate ar sp 5 (.ofCallable f) task =
      .ok (nthLoopResult ar task 1, 2) ∧
    loopIterate ar sp 5 (.ofCallable g) task =
      .ok (nthLoopResult ar task 4, 5) := by
  simp only [nthLoopResult] at h1 h2
  constructor
  · show Except.ok (loopAux ar sp (.ofCallable f) 5 0 task) = _
    rw [show (5 : Nat) = 4 + 1 from rfl, loopAux_step]
    simp only [evalStop, h1, Bool.false_eq_true, if_false, ite_false,
      Nat.zero_add]
    rw [show (4 : Nat) = 3 + 1 from rfl, loopAux_step]
    simp [evalStop, h2, nthLoopResult]
  · show Except.ok (loopAux ar sp (.ofCallable g) 5 0 task) = _
    rw [show (5 : Nat) = 4 + 1 from rfl, loopAux_never_stop ar sp g hg 4 0 task]

/-- C7 (witness): a concrete agent appending `"!"`, a predicate firing exactly
on the second iteration's improve-prompt result, and a never-true
predicate. -/
theorem loop_agent_stop_and_exhaust_witness :
    loopIterate (fun t => t ++ "!") "Final version" 5
      (.ofCallable (fun s => containsSub s.toList "Improve".toList)) "go" =
      .ok (nthLoopResult (fun t => t ++ "!") "go" 1, 2) ∧
    loopIterate (fun t => t ++ "!") "Final version" 5
      (.ofCallable (fun _ => false)) "go" =
      .ok (nthLoopResult (fun t => t ++ "!") "go" 4, 5) :=
  loop_agent_stop_and_exhaust (fun t => t ++ "!")
    (fun s => containsSub s.toList "Improve".toList) (fun _ => false)
    "Final version" "go" rfl rfl (fun _ => rfl)

/-- A memory store whose similarity search succeeds with no matches but whose
write raises. -/
def failingWriteMemory : MemoryIface :=
  ⟨fun _ _ => .ok [], fun _ _ => .error ⟨"Exception", "disk full"⟩⟩

/-- C8 (counterexample): `process_with_memory` with a memory store whose
`add_text` raises propagates that exception and never returns the agent's
answer (generation has not even run yet: the write precedes it). -/
theorem memory_write_failure_aborts :
    processWithMemory failingWriteMemory (fun _ => .ok "the answer") "M" "hi" =
      .error ⟨"Exception", "disk full"⟩ ∧
    processWithMemory failingWriteMemory (fun _ => .ok "the answer") "M" "hi" ≠
      .ok "the answer" := by
  refine ⟨rfl, ?_⟩
  intro h
  rw [show processWithMemory failingWriteMemory (fun _ => .ok "the answer") "M" "hi"
      = .error ⟨"Exception", "disk full"⟩ from rfl] at h
  exact Except.noConfusion h

/-- C8 (amended): `process_with_memory` installs no error handling at all: a
failure raised by the similarity search propagates and aborts the whole call
(no degradation to an empty context), and a failure raised by the memory
write propagates and aborts the call before the answer is generated, so the
generated answer is not returned. -/
theorem memory_failures_propagate (mem mem2 : MemoryIface)
    (agentRun : String → Except PyError String) (nm msg : String)
    (e e2 : PyError) (similar : List SearchResult)
    (hs : mem.searchSimilar msg 10 = .error e)
    (hs2 : mem2.searchSimilar msg 10 = .ok similar)
    (ha : mem2.addText msg [("timestamp", "now"), ("agent", nm)] = .error e2) :
    processWithMemory mem agentRun nm msg = .error e ∧
    processWithMemory mem2 agentRun nm msg = .error e2 := by
  constructor
  · simp [processWithMemory, hs, Bind.bind, Except.bind]
  · simp [processWithMemory, hs2, ha, Bind.bind, Except.bind]

/-- C8 (witness): the propagation theorem applied to two concrete failing
memory stores. -/
theorem memory_failures_propagate_witness :
    processWithMemory ⟨fun _ _ => .error ⟨"Exception", "index down"⟩,
        fun _ _ => .ok ()⟩ (fun _ => .ok "the answer") "M" "hi" =
      .error ⟨"Exception", "index down"⟩ ∧
    processWithMemory failingWriteMemory (fun _ => .ok "the answer") "M" "hi" =
      .error ⟨"Exception", "disk full"⟩ :=
  memory_failures_propagate
    ⟨fun _ _ => .error ⟨"Exception", "index down"⟩, fun _ _ => .ok ()⟩
    failingWriteMemory (fun _ => .ok "the answer") "M" "hi"
    ⟨"Exception", "index down"⟩ ⟨"Exception", "disk full"⟩ [] rfl rfl rfl

/-- Helper: one round of the OpenAI provider loop. -/
lemma oaLoop_step (backend : Nat → List OAMsg → BackendMsg)
    (impls : Option (List (String × ToolImpl))) (fuel callIdx : Nat)
    (messages : List OAMsg) (requests : List (List OAMsg))
    (implCalls : List (String × String)) :
    oaLoop backend impls (fuel + 1) callIdx messages requests implCalls =
      (let resp := backend callIdx messages
       let requests := requests ++ [messages]
       if resp.toolCalls.isEmpty then
         .finished resp.content requests implCalls
       else
         let messages := messages ++ [OAMsg.assistant resp]
         let step := oaProcessToolCalls impls resp.toolCalls messages implCalls
         oaLoop backend impls fuel (callIdx + 1) step.1 requests step.2) := rfl

/-- Helper: one round of the Azure provider loop. -/
lemma azLoop_step (backend : Nat → List AzMsg → BackendMsg)
    (impls : Option (List (String × ToolImpl))) (fuel callIdx : Nat)
    (messages : List AzMsg) (requests : List (List AzMsg))
    (implCalls : List (String × String)) :
    azLoop backend impls (fuel + 1) callIdx messages requests implCalls =
      (let resp := backend callIdx messages
       let requests := requests ++ [messages]
       if resp.toolCalls.isEmpty then
         .finished resp.content requests implCalls
       else
         let messages := messages ++ [AzMsg.assistant resp]
         match azProcessToolCalls impls resp.toolCalls messages implCalls with
         | .error e => .raised e.1 requests e.2
         | .ok step => azLoop backend impls fuel (callIdx + 1) step.1 requests step.2) :=
  rfl

/-- C3: for a round trip whose backend first requests exactly one call to tool
`X` with no final text and then answers final text `T` with no tool calls
(with `X` implemented and succeeding), `X`'s implementation is invoked exactly
once, `generate_text` returns `T`, and the second backend request carries, in
order, the original messages, the assistant's tool-call message, and one
tool-role result message with `X`'s call id — for the OpenAI and the Azure
provider alike. -/
theorem tool_call_round_trip
    (backend : Nat → List OAMsg → BackendMsg)
    (azBackend : Nat → List AzMsg → BackendMsg)
    (l : List (String × ToolImpl)) (f : ToolImpl)
    (prompt sys : String) (ctx : Option (List OAMsg)) (azCtx : Option String)
    (cid X argsX r T : String) (fuel : Nat)
    (hne : l.isEmpty = false)
    (himpl : dictGet l X = some f)
    (hf : f argsX = .ok r)
    (h0 : backend 0 (oaInitMessages prompt sys ctx) = ⟨none, [⟨cid, X, argsX⟩]⟩)
    (h1 : backend 1 (oaInitMessages prompt sys ctx ++
        [OAMsg.assistant ⟨none, [⟨cid, X, argsX⟩]⟩, OAMsg.toolResult cid X r]) =
      ⟨some T, []⟩)
    (g0 : azBackend 0 (azInitMessages prompt sys azCtx) =
      ⟨none, [⟨cid, X, argsX⟩]⟩)
    (g1 : azBackend 1 (azInitMessages prompt sys azCtx ++
        [AzMsg.assistant ⟨none, [⟨cid, X, argsX⟩]⟩, AzMsg.toolResult cid r]) =
      ⟨some T, []⟩) :
    oaGenerateText backend (some l) prompt sys ctx (fuel + 1 + 1) =
      .finished (some T)
        [oaInitMessages prompt sys ctx,
         oaInitMessages prompt sys ctx ++
           [OAMsg.assistant ⟨none, [⟨cid, X, argsX⟩]⟩, OAMsg.toolResult cid X r]]
        [(X, argsX)] ∧
    azGenerateText azBackend (some l) prompt sys azCtx (fuel + 1 + 1) =
      .finished (some T)
        [azInitMessages prompt sys azCtx,
         azInitMessages prompt sys azCtx ++
           [AzMsg.assistant ⟨none, [⟨cid, X, argsX⟩]⟩, AzMsg.toolResult cid r]]
        [(X, argsX)] := by
  constructor
  · unfold oaGenerateText
    simp only [oaLoop_step, h0, oaProcessToolCalls, oaCallTool, hne, himpl, hf,
      List.isEmpty_cons, List.nil_append, List.append_assoc,
      List.singleton_append, Bool.false_eq_true, if_false, ite_false]
    simp only [List.cons_append, List.nil_append, h1]
    simp
  · unfold azGenerateText
    simp only [azLoop_step, g0, azProcessToolCalls, azCallTool, himpl, hf,
      List.isEmpty_cons, List.nil_append, List.append_assoc,
      List.singleton_append, Bool.false_eq_true, if_false, ite_false]
    simp only [List.cons_append, List.nil_append, g1]
    simp

/-- An OpenAI-shaped mock backend that first requests tool `X` and then
answers `T`. -/
def oaMockBackend : Nat → List OAMsg → BackendMsg := fun i _ =>
  if i = 0 then ⟨none, [⟨"call_1", "X", "args"⟩]⟩ else ⟨some "T", []⟩

/-- The same mock backend over Azure-shaped conversations. -/
def azMockBackend : Nat → List AzMsg → BackendMsg := fun i _ =>
  if i = 0 then ⟨none, [⟨"call_1", "X", "args"⟩]⟩ else ⟨some "T", []⟩

/-- C3 (witness): the round-trip theorem applied to the concrete mock backend
and a concrete implementation of `X`. -/
theorem tool_call_round_trip_witness :
    oaGenerateText oaMockBackend (some [("X", fun _ => .ok "42")]) "p" "s" none
      (0 + 1 + 1) =
      .finished (some "T")
        [oaInitMessages "p" "s" none,
         oaInitMessages "p" "s" none ++
           [OAMsg.assistant ⟨none, [⟨"call_1", "X", "args"⟩]⟩,
            OAMsg.toolResult "call_1" "X" "42"]]
        [("X", "args")] ∧
    azGenerateText azMockBackend (some [("X", fun _ => .ok "42")]) "p" "s" none
      (0 + 1 + 1) =
      .finished (some "T")
        [azInitMessages "p" "s" none,
         azInitMessages "p" "s" none ++
           [AzMsg.assistant ⟨none, [⟨"call_1", "X", "args"⟩]⟩,
            AzMsg.toolResult "call_1" "42"]]
        [("X", "args")] :=
  tool_call_round_trip oaMockBackend azMockBackend [("X", fun _ => .ok "42")]
    (fun _ => .ok "42") "p" "s" none none "call_1" "X" "args" "42" "T" 0
    rfl rfl rfl rfl rfl rfl rfl

/-- An Azure-shaped mock backend that first requests the raising tool
`boom_tool` and then would answer `T`. -/
def azRaisingBackend : Nat → List AzMsg → BackendMsg := fun i _ =>
  if i = 0 then ⟨none, [⟨"call_1", "boom_tool", "args"⟩]⟩ else ⟨some "T", []⟩

/-- C4 (counterexample): with the Azure provider, a tool implementation that
raises makes the exception propagate out of `generate_text` after a single
backend request — the failure is not converted into a tool-result message fed
back to the backend, contradicting the claim for one of its two cited
providers. -/
theorem azure_tool_exception_propagates :
    azGenerateText azRaisingBackend
      (some [("boom_tool", fun _ => .error ⟨"Exception", "boom"⟩)]) "p" "s" none 2 =
      .raised ⟨"Exception", "boom"⟩ [azInitMessages "p" "s" none] [] := rfl

/-- C4 (amended): with the OpenAI provider, a failed tool invocation never
aborts `generate_text`: an unknown tool name (including a `None` or empty
implementation dict) yields the `"Tool <name> not found"` message without
invoking anything, a raising tool yields
`"Error executing tool <name>: <message>"`, and for every implementation dict
the round trip completes with the backend's final text, the message fed back
as the tool result of the second request.  With the Azure provider only the
unknown-name case is converted (to `"Tool <name> not found"`); a raising tool
propagates its exception out of `generate_text`. -/
theorem tool_failure_handling
    (l1 l2 : List (String × ToolImpl)) (f : ToolImpl) (nm argsv : String)
    (e : PyError)
    (hmiss : dictGet l1 nm = none)
    (hhit : dictGet l2 nm = some f)
    (hf : f argsv = .error e)
    (backend : Nat → List OAMsg → BackendMsg) (tc : ToolCallReq)
    (prompt sys T : String)
    (h0 : backend 0 (oaInitMessages prompt sys none) = ⟨none, [tc]⟩)
    (hfin : ∀ ms, backend 1 ms = ⟨some T, []⟩)
    (azBackend : Nat → List AzMsg → BackendMsg) (cid : String)
    (g0 : azBackend 0 (azInitMessages prompt sys none) =
      ⟨none, [⟨cid, nm, argsv⟩]⟩) :
    oaCallTool (some l1) nm argsv = ("Tool " ++ nm ++ " not found", false) ∧
    oaCallTool none nm argsv = ("Tool " ++ nm ++ " not found", false) ∧
    oaCallTool (some l2) nm argsv =
      ("Error executing tool " ++ nm ++ ": " ++ e.msg, true) ∧
    (∀ impls, oaGenerateText backend impls prompt sys none (0 + 1 + 1) =
      .finished (some T)
        [oaInitMessages prompt sys none,
         oaInitMessages prompt sys none ++
           [OAMsg.assistant ⟨none, [tc]⟩,
            OAMsg.toolResult tc.id tc.fname
              (oaCallTool impls tc.fname tc.arguments).1]]
        (if (oaCallTool impls tc.fname tc.arguments).2 then
          [(tc.fname, tc.arguments)] else [])) ∧
    azCallTool (some l1) nm argsv = .ok ("Tool " ++ nm ++ " not found", false) ∧
    azGenerateText azBackend (some l2) prompt sys none (0 + 1 + 1) =
      .raised e [azInitMessages prompt sys none] [] := by
  have hne : l2.isEmpty = false := by
    cases h : l2 with
    | nil => rw [h] at hhit; simp [dictGet] at hhit
    | cons a t => simp
  refine ⟨?_, rfl, ?_, ?_, ?_, ?_⟩
  · cases h : l1.isEmpty <;> simp [oaCallTool, hmiss, h]
  · simp [oaCallTool, hne, hhit, hf]
  · intro impls
    unfold oaGenerateText
    simp only [oaLoop_step, h0, oaProcessToolCalls, List.isEmpty_cons,
      List.nil_append, List.append_assoc, List.singleton_append,
      Bool.false_eq_true, if_false, ite_false]
    simp only [List.cons_append, List.nil_append, hfin]
    simp
  · simp [azCallTool, hmiss]
  · unfold azGenerateText
    simp only [azLoop_step, g0, azProcessToolCalls, azCallTool, hhit, hf,
      List.isEmpty_cons, List.nil_append, Bool.false_eq_true, if_false,
      ite_false]

/-- An OpenAI-shaped mock backend that first requests the raising tool
`boom_tool` and then answers `T`. -/
def oaRaisingBackend : Nat → List OAMsg → BackendMsg := fun i _ =>
  if i = 0 then ⟨none, [⟨"call_1", "boom_tool", "args"⟩]⟩ else ⟨some "T", []⟩

/-- C4 (witness): the failure-handling theorem applied to a dict without the
requested tool, a dict whose tool raises `Exception("boom")`, and the concrete
mock backends, with the round-trip conjunct instantiated at the raising
dict. -/
theorem tool_failure_handling_witness :
    oaCallTool (some [("other", fun _ => .ok "x")]) "boom_tool" "args" =
      ("Tool " ++ "boom_tool" ++ " not found", false) ∧
    oaCallTool none "boom_tool" "args" =
      ("Tool " ++ "boom_tool" ++ " not found", false) ∧
    oaCallTool (some [("boom_tool", fun _ => .error ⟨"Exception", "boom"⟩)])
      "boom_tool" "args" =
      ("Error executing tool " ++ "boom_tool" ++ ": " ++
        (⟨"Exception", "boom"⟩ : PyError).msg, true) ∧
    oaGenerateText oaRaisingBackend
      (some [("boom_tool", fun _ => .error ⟨"Exception", "boom"⟩)]) "p" "s" none
      (0 + 1 + 1) =
      .finished (some "T")
        [oaInitMessages "p" "s" none,
         oaInitMessages "p" "s" none ++
           [OAMsg.assistant ⟨none, [⟨"call_1", "boom_tool", "args"⟩]⟩,
            OAMsg.toolResult "call_1" "boom_tool"
              (oaCallTool
                (some [("boom_tool", fun _ => .error ⟨"Exception", "boom"⟩)])
                "boom_tool" "args").1]]
        (if (oaCallTool
            (some [("boom_tool", fun _ => .error ⟨"Exception", "boom"⟩)])
            "boom_tool" "args").2 then [("boom_tool", "args")] else []) ∧
    azCallTool (some [("other", fun _ => .ok "x")]) "boom_tool" "args" =
      .ok ("Tool " ++ "boom_tool" ++ " not found", false) ∧
    azGenerateText azRaisingBackend
      (some [("boom_tool", fun _ => .error ⟨"Exception", "boom"⟩)]) "p" "s" none
      (0 + 1 + 1) =
      .raised ⟨"Exception", "boom"⟩ [azInitMessages "p" "s" none] [] := by
  have h := tool_failure_handling [("other", fun _ => .ok "x")]
    [("boom_tool", fun _ => .error ⟨"Exception", "boom"⟩)]
    (fun _ => .error ⟨"Exception", "boom"⟩) "boom_tool" "args"
    ⟨"Exception", "boom"⟩ rfl rfl rfl oaRaisingBackend
    ⟨"call_1", "boom_tool", "args"⟩ "p" "s" "T" rfl (fun _ => rfl)
    azRaisingBackend "call_1" rfl
  exact ⟨h.1, h.2.1, h.2.2.1,
    h.2.2.2.1 (some [("boom_tool", fun _ => .error ⟨"Exception", "boom"⟩)]),
    h.2.2.2.2.1, h.2.2.2.2.2⟩

end EchoSpec
